import Mathlib

/-!
# Verification of the DiscordSend bot core (job orchestrator + event channel client)

Shallow embedding of the parts of the repository that the claims are about:

* `bot/database/models.py`   — `JobStatus`, the `Job` row (claim-relevant columns)
* `bot/database/repository.py` — `Repository.update_job_status`,
  `Repository.update_job_progress`, `Repository.count_user_pending_jobs`,
  `Repository.create_job`, `Repository.get_job_by_id`, `Repository.get_server`,
  `Repository.get_or_create_user`
* `bot/services/job_manager.py` — `JobManager.create_job`, `JobManager.cancel_job`,
  the WebSocket event handlers and the debounced delivery scheduling
* `bot/comfyui/websocket.py`  — backoff computation, listener dispatch, and a
  small-step interleaving model of `connect()` / `disconnect()`

The database is modelled as an in-memory value (`DB`); each repository method
becomes a pure function threading that value.  Times (`datetime.utcnow()`) are an
explicit `Nat` parameter.  External calls (ComfyUI HTTP client) are modelled by
their outcome, passed in as a parameter, together with a trace of which external
operations were invoked.  Python float arithmetic in the backoff computation is
idealized as rational arithmetic.
-/

namespace DiscordSend

/-- `JobStatus` from `bot/database/models.py` (string enum values
`pending`, `running`, `completed`, `failed`, `cancelled`). -/
inductive JobStatus
  | pending
  | running
  | completed
  | failed
  | cancelled
deriving DecidableEq

/-- The terminal statuses, as enumerated in `JobManager.cancel_job` and in the
`elif` branch of `Repository.update_job_status`. -/
def JobStatus.isTerminal : JobStatus → Bool
  | .completed => true
  | .failed => true
  | .cancelled => true
  | _ => false

/-- A row of the `jobs` table (`bot/database/models.py`, class `Job`), restricted
to the columns that the orchestrator logic reads or writes.  Text columns that
are stored but never consulted by the claims' code paths (`positive_prompt`,
`negative_prompt`, `parameters`, `workflow_json`, `queue_position`, `message_id`)
are omitted. -/
structure Job where
  id : Nat
  promptId : String
  userId : Nat
  serverId : Option Nat
  channelId : Option String
  deliveryType : String
  status : JobStatus
  progress : Int
  progressMax : Int
  outputImages : Option (List String)
  errorMessage : Option String
  startedAt : Option Nat
  completedAt : Option Nat
deriving DecidableEq

/-- A row of the `users` table, restricted to the columns used here. -/
structure UserRow where
  id : Nat
  discordId : String
deriving DecidableEq

/-- A row of the `servers` table, restricted to the columns used here
(`max_queue_per_user` has column default 3). -/
structure ServerRow where
  id : Nat
  discordId : String
  maxQueuePerUser : Nat
deriving DecidableEq

/-- The database state seen through `Repository`. -/
structure DB where
  users : List UserRow
  servers : List ServerRow
  jobs : List Job
deriving DecidableEq

namespace Repository

/-- `select(Job).where(Job.prompt_id == prompt_id)` followed by
`scalar_one_or_none()`: the row with the given prompt id (the `prompt_id`
column is UNIQUE, so at most one row matches). -/
def findJob (db : DB) (promptId : String) : Option Job :=
  db.jobs.find? (fun j => j.promptId == promptId)

/-- Commit a mutated row back: every row selected by the same `prompt_id`
becomes the updated row (with the UNIQUE constraint this is exactly the one
selected row). -/
def replaceJob (db : DB) (j : Job) : DB :=
  { db with jobs := db.jobs.map (fun k => if k.promptId == j.promptId then j else k) }

/-- The mutation `update_job_status` performs on the selected row (lines
483-494): set `status` unconditionally; set `started_at` when the new status
is `running`, else `completed_at` when it is terminal; then apply
`error_message` / `output_images` when given. -/
def applyStatusUpdate (j : Job) (status : JobStatus) (errorMessage : Option String)
    (outputImages : Option (List String)) (now : Nat) : Job :=
  let j1 : Job := { j with status := status }
  let j2 : Job :=
    if status = .running then { j1 with startedAt := some now }
    else if status.isTerminal then { j1 with completedAt := some now }
    else j1
  let j3 : Job := match errorMessage with
    | some e => { j2 with errorMessage := some e }
    | none => j2
  match outputImages with
  | some imgs => { j3 with outputImages := some imgs }
  | none => j3

/-- `Repository.update_job_status` (`bot/database/repository.py` lines 467-497):
select the row by prompt id; if absent return `None`; otherwise mutate it per
`applyStatusUpdate`, commit, and return the row. -/
def update_job_status (db : DB) (promptId : String) (status : JobStatus)
    (errorMessage : Option String) (outputImages : Option (List String))
    (now : Nat) : DB × Option Job :=
  match findJob db promptId with
  | none => (db, none)
  | some j =>
    let j4 := applyStatusUpdate j status errorMessage outputImages now
    (replaceJob db j4, some j4)

/-- `Repository.update_job_progress` (lines 499-515): select by prompt id; if
present set `progress` and `progress_max` (no status check) and commit; return
the row or `None`. -/
def update_job_progress (db : DB) (promptId : String) (progress progressMax : Int) :
    DB × Option Job :=
  match findJob db promptId with
  | none => (db, none)
  | some j =>
    let j1 : Job := { j with progress := progress, progressMax := progressMax }
    (replaceJob db j1, some j1)

/-- `select(User).where(User.discord_id == discord_id)`, `scalar_one_or_none()`. -/
def getUser (db : DB) (discordId : String) : Option UserRow :=
  db.users.find? (fun u => u.discordId == discordId)

/-- `Repository.get_server` (select by `discord_id`, `scalar_one_or_none()`). -/
def get_server (db : DB) (discordId : String) : Option ServerRow :=
  db.servers.find? (fun s => s.discordId == discordId)

/-- Next autoincrement id for the `users` table. -/
def freshUserId (db : DB) : Nat :=
  db.users.foldr (fun u m => max (u.id + 1) m) 1

/-- Next autoincrement id for the `jobs` table. -/
def freshJobId (db : DB) : Nat :=
  db.jobs.foldr (fun j m => max (j.id + 1) m) 1

/-- `Repository.get_or_create_user` (username bookkeeping omitted: the
`username` column is not read by any claim). -/
def get_or_create_user (db : DB) (discordId : String) : DB × UserRow :=
  match getUser db discordId with
  | some u => (db, u)
  | none =>
    let u : UserRow := { id := freshUserId db, discordId := discordId }
    ({ db with users := db.users ++ [u] }, u)

/-- `Repository.count_user_pending_jobs` (lines 561-590): 0 when the user row is
absent; otherwise the count of the user's jobs with status in
{`pending`, `running`}, additionally filtered by server id when a
`server_discord_id` is given AND its server row exists. -/
def count_user_pending_jobs (db : DB) (userDiscordId : String)
    (serverDiscordId : Option String) : Nat :=
  match getUser db userDiscordId with
  | none => 0
  | some u =>
    let isActive : Job → Bool := fun j =>
      j.userId == u.id && (j.status == .pending || j.status == .running)
    match serverDiscordId with
    | some sid =>
      match get_server db sid with
      | some s => (db.jobs.filter isActive).countP (fun j => j.serverId == some s.id)
      | none => db.jobs.countP isActive
    | none => db.jobs.countP isActive

/-- `Repository.create_job` (lines 401-445): the user row must exist (else
`ValueError`); the server id is resolved only when the server row exists; the
new row takes the column defaults `status=pending`, `progress=0`,
`progress_max=0` and empty results. -/
def create_job (db : DB) (promptId : String) (userDiscordId : String)
    (serverDiscordId : Option String) (channelId : Option String)
    (deliveryType : String) : Except Unit (DB × Job) :=
  match getUser db userDiscordId with
  | none => .error ()
  | some u =>
    let serverId : Option Nat :=
      match serverDiscordId with
      | some sid => (get_server db sid).map (fun s => s.id)
      | none => none
    let j : Job :=
      { id := freshJobId db, promptId := promptId, userId := u.id,
        serverId := serverId, channelId := channelId, deliveryType := deliveryType,
        status := .pending, progress := 0, progressMax := 0,
        outputImages := none, errorMessage := none,
        startedAt := none, completedAt := none }
    .ok ({ db with jobs := db.jobs ++ [j] }, j)

/-- `Repository.get_job_by_id` (select by the surrogate key `id`). -/
def get_job_by_id (db : DB) (jobId : Nat) : Option Job :=
  db.jobs.find? (fun j => j.id == jobId)

end Repository

/-- The fields the `JobManager` event handlers extract from the `data` sub-dict
of a channel message (each via `dict.get`, hence `Option`).  `outputImages`
is `some imgs` exactly when the `output` dict has an `images` key (whose value
is a list, kept opaque as strings). -/
structure EventData where
  promptId : Option String
  value : Option Int
  maxVal : Option Int
  outputImages : Option (List String)
  exceptionType : Option String
  exceptionMessage : Option String
deriving DecidableEq

/-- Python truthiness of the extracted `prompt_id`: `if prompt_id:` is true
exactly for a present, non-empty string. -/
def truthy : Option String → Bool
  | some s => !(s == "")
  | none => false

/-- External ComfyUI HTTP client operations invoked by `JobManager`
(`ComfyUIClient.queue_prompt`, `.interrupt`, `.delete_queue_item`). -/
inductive ExtCall
  | queuePrompt
  | interrupt
  | deleteQueueItem (promptId : String)
deriving DecidableEq

namespace JobManager

/-- `JobManager._on_execution_start` (lines 146-149): if a truthy `prompt_id`
is present, set the job's status to `running` via
`Repository.update_job_status`; otherwise do nothing. -/
def on_execution_start (db : DB) (d : EventData) (now : Nat) : DB :=
  if truthy d.promptId then
    (Repository.update_job_status db (d.promptId.getD "") .running none none now).1
  else db

/-- `JobManager._on_progress` (lines 154-161): when `prompt_id` is truthy and
both `value` and `max` are present (`is not None`), call
`Repository.update_job_progress`; otherwise do nothing. -/
def on_progress (db : DB) (d : EventData) : DB :=
  match d.value, d.maxVal with
  | some v, some m =>
    if truthy d.promptId then
      (Repository.update_job_progress db (d.promptId.getD "") v m).1
    else db
  | _, _ => db

/-- `JobManager._on_executed` (lines 163-191): when `prompt_id` is truthy and
the `output` dict contains an `images` key, mark the job `completed` with the
images; the returned row (when found) is the job handed to
`_schedule_delivery`.  In every other case nothing happens. -/
def on_executed (db : DB) (d : EventData) (now : Nat) : DB × Option Job :=
  match d.outputImages with
  | some imgs =>
    if truthy d.promptId then
      Repository.update_job_status db (d.promptId.getD "") .completed none (some imgs) now
    else (db, none)
  | none => (db, none)

/-- `JobManager._on_execution_error` (lines 193-205): when `prompt_id` is
truthy, mark the job `failed` with `"{exception_type}: {exception_message}"`
(fields defaulting to `"Unknown Error"` / `""`). -/
def on_execution_error (db : DB) (d : EventData) (now : Nat) : DB :=
  if truthy d.promptId then
    let etype := d.exceptionType.getD "Unknown Error"
    let emsg := d.exceptionMessage.getD ""
    (Repository.update_job_status db (d.promptId.getD "")
      .failed (some (etype ++ ": " ++ emsg)) none now).1
  else db

/-- The channel events `JobManager` subscribes to (the `status` and
`executing` handlers are `pass`, so they are omitted from the event type's
effect; an event is one of the four effectful kinds carrying its extracted
fields). -/
inductive Event
  | executionStart (d : EventData)
  | progress (d : EventData)
  | executed (d : EventData)
  | executionError (d : EventData)
deriving DecidableEq

/-- Dispatch of one channel event to the corresponding handler; the second
component is the job passed to `_schedule_delivery` (only ever some for an
`executed` event whose status update found the row). -/
def processEvent (db : DB) (e : Event) (now : Nat) : DB × Option Job :=
  match e with
  | .executionStart d => (on_execution_start db d now, none)
  | .progress d => (on_progress db d, none)
  | .executed d => on_executed db d now
  | .executionError d => (on_execution_error db d now, none)

/-- The admission ceiling of `JobManager.create_job` (lines 57-62):
`max_queue = 3`, overridden by `server.max_queue_per_user` only when a
server discord id was given and its row exists. -/
def admissionCeiling (db : DB) (serverDiscordId : Option String) : Nat :=
  match serverDiscordId with
  | some sid =>
    match Repository.get_server db sid with
    | some s => s.maxQueuePerUser
    | none => 3
  | none => 3

/-- View of `Except` as a sum, used to decide equality of call outcomes. -/
def exceptToSum {ε α : Type} : Except ε α → ε ⊕ α
  | .error e => .inl e
  | .ok a => .inr a

instance {ε α : Type} [DecidableEq ε] [DecidableEq α] : DecidableEq (Except ε α) :=
  fun a b =>
    decidable_of_iff (exceptToSum a = exceptToSum b)
      (by cases a <;> cases b <;> simp [exceptToSum])

/-- Failure modes of `JobManager.create_job` (each a `raise ValueError` in the
source, except `submitFailed` which is the propagated exception of
`ComfyUIClient.queue_prompt`). -/
inductive CreateErr
  | queueLimit (maxQueue : Nat)
  | noPromptId
  | userNotFound
  | submitFailed
deriving DecidableEq

/-- Result of a `JobManager.create_job` call: the database afterwards, the
trace of external ComfyUI calls made, and the outcome. -/
structure CreateOutcome where
  db : DB
  calls : List ExtCall
  result : Except CreateErr Job
deriving DecidableEq

/-- `JobManager.create_job` (lines 40-88).  `submit` models the outcome of
`await self.client.queue_prompt(...)`: `.error ()` when the call raises,
otherwise the `prompt_id` field of the response (`None` when absent).  Order
as in the source: ensure the user row, count active jobs, resolve the
ceiling, reject when `count >= ceiling` before any backend call; then submit;
`if not prompt_id:` (falsy: absent or empty) raise; only then create the
Pending row. -/
def create_job (db : DB) (userDiscordId : String) (serverDiscordId : Option String)
    (channelId : Option String) (deliveryType : String)
    (submit : Except Unit (Option String)) : CreateOutcome :=
  let p := Repository.get_or_create_user db userDiscordId
  let db1 := p.1
  let cnt := Repository.count_user_pending_jobs db1 userDiscordId serverDiscordId
  let maxQueue := admissionCeiling db1 serverDiscordId
  if cnt ≥ maxQueue then
    { db := db1, calls := [], result := .error (.queueLimit maxQueue) }
  else
    match submit with
    | .error _ => { db := db1, calls := [.queuePrompt], result := .error .submitFailed }
    | .ok pidOpt =>
      if truthy pidOpt then
        match Repository.create_job db1 (pidOpt.getD "") userDiscordId serverDiscordId
            channelId deliveryType with
        | .error _ => { db := db1, calls := [.queuePrompt], result := .error .userNotFound }
        | .ok r => { db := r.1, calls := [.queuePrompt], result := .ok r.2 }
      else
        { db := db1, calls := [.queuePrompt], result := .error .noPromptId }

/-- Result of a `JobManager.cancel_job` call: database afterwards, trace of
external calls, and either the returned boolean or a propagated exception. -/
structure CancelOutcome where
  db : DB
  calls : List ExtCall
  result : Except Unit Bool
deriving DecidableEq

/-- `JobManager.cancel_job` (lines 90-109).  `interruptRaises` models whether
`await self.client.interrupt()` raises (its transport errors are not caught
anywhere on this path); `deleteRaises` models whether
`await self.client.delete_queue_item(...)` raises — that call sits in a bare
`try/except: pass`, so the parameter cannot influence the outcome.  Terminal
(or missing) jobs: return `False` untouched.  `interrupt()` is called only
for a `running` job, before the queue removal; an uncaught exception there
propagates with no state change. -/
def cancel_job (db : DB) (jobId : Nat) (interruptRaises deleteRaises : Bool)
    (now : Nat) : CancelOutcome :=
  match Repository.get_job_by_id db jobId with
  | none => { db := db, calls := [], result := .ok false }
  | some j =>
    if j.status.isTerminal then
      { db := db, calls := [], result := .ok false }
    else
      let interruptCalls : List ExtCall :=
        if j.status = .running then [.interrupt] else []
      if j.status = .running ∧ interruptRaises then
        { db := db, calls := interruptCalls, result := .error () }
      else
        let _ := deleteRaises
        let db2 := (Repository.update_job_status db j.promptId .cancelled none none now).1
        { db := db2, calls := interruptCalls ++ [.deleteQueueItem j.promptId],
          result := .ok true }

end JobManager

/-- The per-prompt debounce registry `JobManager._delivery_tasks`: a live
timer per prompt id, each remembering the `Job` snapshot that
`_schedule_delivery` passed to its `_deliver_delayed` task. -/
structure DeliveryTimers where
  entries : List (String × Job)
deriving DecidableEq

namespace JobManager

/-- The debounce window: `await asyncio.sleep(1.0)` in `_deliver_delayed`. -/
def DEBOUNCE_SECONDS : ℚ := 1

/-- `JobManager._schedule_delivery` (lines 111-128): cancel the existing timer
for the prompt id if any (it then never fires), and register a fresh timer
holding the snapshot `job`.  The boolean reports whether a previous timer was
cancelled. -/
def schedule_delivery (t : DeliveryTimers) (job : Job) : DeliveryTimers × Bool :=
  let hadTimer := (t.entries.find? (fun e => e.1 == job.promptId)).isSome
  ({ entries := t.entries.filter (fun e => !(e.1 == job.promptId)) ++
      [(job.promptId, job)] }, hadTimer)

/-- The argument `_deliver_delayed` hands to `DeliveryService.deliver_job` when
the timer for `pid` expires naturally: the stored snapshot (the source passes
the `job` object captured at schedule time; nothing is re-read). -/
def expiryPayload (t : DeliveryTimers) (pid : String) : Option Job :=
  (t.entries.find? (fun e => e.1 == pid)).map (fun e => e.2)

/-- Modelled from the claim's words (for comparison with `expiryPayload`): the
delivery callback would receive the current persisted state of the Job,
re-read from the Repository at expiry time. -/
def expiryPayloadClaim (db : DB) (pid : String) : Option Job :=
  Repository.findJob db pid

/-- Modelled from the claim's words (for comparison with
`Repository.count_user_pending_jobs`): the count of the owner's Jobs with
status in {Pending, Running}, restricted to the given scope whenever one is
provided — a job lies in the scope when its server id references the server
row carrying that discord id. -/
def claimActiveCount (db : DB) (userDiscordId : String)
    (serverDiscordId : Option String) : Nat :=
  match Repository.getUser db userDiscordId with
  | none => 0
  | some u =>
    let active := db.jobs.filter (fun j =>
      j.userId == u.id && (j.status == .pending || j.status == .running))
    match serverDiscordId with
    | none => active.length
    | some sid =>
      (active.filter (fun j =>
        match Repository.get_server db sid with
        | some s => j.serverId == some s.id
        | none => false)).length

end JobManager

namespace ComfyUIWebSocket

/-- Reconnection constants of `bot/comfyui/websocket.py` lines 10-14 (floats
idealized as rationals). -/
def INITIAL_BACKOFF : ℚ := 1

/-- Maximum delay cap (`MAX_BACKOFF = 60.0`). -/
def MAX_BACKOFF : ℚ := 60

/-- Exponential multiplier (`BACKOFF_MULTIPLIER = 2`). -/
def BACKOFF_MULTIPLIER : ℚ := 2

/-- Plus-or-minus 10% randomization (`JITTER_FACTOR = 0.1`). -/
def JITTER_FACTOR : ℚ := 1 / 10

/-- `ComfyUIWebSocket._calculate_backoff` (lines 140-146) as a function of the
current value of `self._reconnect_attempts` and of the `random.random()` draw
`r` (which lies in `[0,1)`):
`delay = min(INITIAL_BACKOFF * BACKOFF_MULTIPLIER ** attempts, MAX_BACKOFF)`,
then `delay + delay * JITTER_FACTOR * (2*r - 1)`. -/
def calculate_backoff (attempts : Nat) (r : ℚ) : ℚ :=
  let delay := min (INITIAL_BACKOFF * BACKOFF_MULTIPLIER ^ attempts) MAX_BACKOFF
  delay + delay * JITTER_FACTOR * (2 * r - 1)

/-- Counter events: each iteration of `_reconnect_loop` that fails keeps
looping (a failed attempt), and a successful `connect()` sets
`self._reconnect_attempts = 0` (line 67). -/
inductive ConnEvent
  | reconnectFailure
  | connectSuccess
deriving DecidableEq

/-- Value of `self._reconnect_attempts` after a history of events, starting
from the constructor's 0. -/
def reconnectCounter (events : List ConnEvent) : Nat :=
  events.foldl (fun c e =>
    match e with
    | .reconnectFailure => c + 1
    | .connectSuccess => 0) 0

/-- The delay slept before reconnect attempt `n` (1-indexed since the counter
was last reset to 0): `_reconnect_loop` (lines 168-178) increments
`self._reconnect_attempts` BEFORE calling `_calculate_backoff`, so the counter
holds `n` when the delay is computed. -/
def delayForAttempt (n : Nat) (r : ℚ) : ℚ :=
  calculate_backoff (0 + n) r

/-- A handler registered via `add_listener`: an identifying tag plus the
coroutine body, which may raise (`.error ()`). Its argument is the parsed
message (kept opaque). -/
structure Handler where
  hid : Nat
  run : String → Except Unit Unit

/-- The registry `self._callbacks : Dict[str, List[callback]]`. -/
structure Callbacks where
  entries : List (String × List Handler)

/-- `ComfyUIWebSocket.add_listener` (lines 100-104): append the callback to the
(possibly fresh) list for the event type. -/
def add_listener (cbs : Callbacks) (eventType : String) (h : Handler) : Callbacks :=
  match cbs.entries.find? (fun e => e.1 == eventType) with
  | some _ =>
    { entries := cbs.entries.map (fun e =>
        if e.1 == eventType then (e.1, e.2 ++ [h]) else e) }
  | none => { entries := cbs.entries ++ [(eventType, [h])] }

/-- `self._callbacks.get(event_type, [])`. -/
def getHandlers (cbs : Callbacks) (eventType : String) : List Handler :=
  ((cbs.entries.find? (fun e => e.1 == eventType)).map (fun e => e.2)).getD []

/-- The value of the `type` field of a decoded JSON object, as
`data.get("type", "unknown")` and the subsequent `self._callbacks.get(...)
` see it: absent (Python substitutes `"unknown"`), a string, some other
hashable value (a number, `null`, a bool — a valid dict key that can never
equal a registered string key), or an unhashable value (a list or dict,
on which the callbacks-dict lookup raises `TypeError`). -/
inductive TypeField
  | absent
  | str (s : String)
  | nonStr
  | unhashable

/-- One TEXT frame as the listener sees it: `json.loads` raises
`JSONDecodeError` (`malformed` — the one exception the inner `try` catches);
or it yields a value that is not a dict, so `data.get` raises
`AttributeError` (`nonObject`); or it yields an object carrying a `type`
field per `TypeField`. -/
inductive TextPayload
  | malformed
  | nonObject
  | object (eventType : TypeField) (raw : String)

/-- One frame of the `async for` loop in `_listen`. -/
inductive WSMsg
  | text (p : TextPayload)
  | wsError

/-- The `for handler in handlers` loop of `_listen` (lines 120-125): each
handler is awaited inside `try/except Exception`, so every registered handler
runs and its outcome (normal or raised-and-logged) is recorded; a raising
handler stops neither its siblings nor the loop. -/
def dispatch (hs : List Handler) (raw : String) : List (Nat × Except Unit Unit) :=
  match hs with
  | [] => []
  | h :: rest => (h.hid, h.run raw) :: dispatch rest raw

/-- Processing of one message by `_listen` (lines 112-131): the invocation
trace (handler tag, outcome) and whether the loop continues to the next
message.  An undecodable payload is logged and skipped (`except
json.JSONDecodeError` is the only handler inside the loop body); a decoded
non-dict payload makes `data.get` raise `AttributeError`, and an unhashable
`type` value makes `self._callbacks.get` raise `TypeError` — both escape the
`async for` (caught only by the outer handler around the whole loop) and
terminate the listener.  Otherwise the object dispatches to the handlers of
its `type` (`"unknown"` when absent; a hashable non-string key matches no
registered string key, so no handlers); a `WSMsgType.ERROR` frame breaks the
loop. -/
def processMessage (cbs : Callbacks) (m : WSMsg) :
    List (Nat × Except Unit Unit) × Bool :=
  match m with
  | .text .malformed => ([], true)
  | .text .nonObject => ([], false)
  | .text (.object .unhashable _) => ([], false)
  | .text (.object .nonStr raw) => (dispatch [] raw, true)
  | .text (.object .absent raw) => (dispatch (getHandlers cbs "unknown") raw, true)
  | .text (.object (.str s) raw) => (dispatch (getHandlers cbs s) raw, true)
  | .wsError => ([], false)

end ComfyUIWebSocket

namespace WSModel

/-!
Small-step interleaving model of `ComfyUIWebSocket.connect()` (lines 45-74),
`disconnect()` (lines 76-98) and the spawned `_listen` task, for the scenario
of claim C9: `disconnect()` is invoked while `connect()` is suspended at
`await self.session.ws_connect(...)`.  Cooperative concurrency: control only
changes hands at `await` points, so each transition is one maximal atomic
block of one task.  The scheduler (and the outcome of the in-flight
`ws_connect`) is the nondeterminism resolved by `step`.

Program counters:
* `cpc` (connect): 0 = suspended at `ws_connect` holding the state lock;
  1 = resumed, re-checking `self._should_reconnect`; 2 = abort path, at
  `await self.ws.close()`; 6 = abort path, at `await self.session.close()`
  then `return`; 4 = exception path, at `await self.session.close()`;
  7 = exception path, re-raising; 3 = returned; 5 = raised.
* `dpc` (disconnect): 0 = at `async with self._state_lock` (blocked while the
  lock is held); 1 = inside the lock, clearing the flags; 2 = cancelling an
  in-flight reconnect task; 3 = at `await self.ws.close()`; 4 = at
  `await self.session.close()`; 5 = at `await self._listen_task` (blocked
  until the listener finishes); 6 = returned.
* `lpc` (listener, meaningful once `listenerSpawned`): 0 = suspended in
  `async for msg in self.ws` (with no inbound traffic it resumes only when
  the socket is closed, ending the iteration); 1 = in the `finally` block;
  2 = finished.
-/

/-- Process-local state of the scenario. `lock`: 0 free, 1 held by connect,
2 held by disconnect. -/
structure St where
  cpc : Nat
  dpc : Nat
  lpc : Nat
  lock : Nat
  shouldReconnect : Bool
  running : Bool
  wsOpen : Bool
  wsSome : Bool
  sessionOpen : Bool
  listenerSpawned : Bool
  reconnectScheduled : Bool
deriving DecidableEq

/-- Start of the scenario: `connect()` holds the lock and is awaiting
`ws_connect`; `disconnect()` has just been called; no listener yet;
`_should_reconnect` still true; a session object exists. -/
def init : St :=
  { cpc := 0, dpc := 0, lpc := 0, lock := 1, shouldReconnect := true,
    running := false, wsOpen := false, wsSome := false, sessionOpen := true,
    listenerSpawned := false, reconnectScheduled := false }

/-- Steps of the `connect()` coroutine (it holds the lock throughout). -/
def stepConnect (s : St) : List St :=
  if s.cpc = 0 then
    [ { s with wsOpen := true, wsSome := true, cpc := 1 },
      { s with cpc := 4 } ]
  else if s.cpc = 1 then
    if s.shouldReconnect then
      [ { s with
            running := true, listenerSpawned := true, lpc := 0, lock := 0, cpc := 3 } ]
    else
      [ { s with cpc := 2 } ]
  else if s.cpc = 2 then
    [ { s with wsOpen := false, cpc := 6 } ]
  else if s.cpc = 6 then
    [ { s with sessionOpen := false, lock := 0, cpc := 3 } ]
  else if s.cpc = 4 then
    [ { s with sessionOpen := false, cpc := 7 } ]
  else if s.cpc = 7 then
    [ { s with lock := 0, cpc := 5 } ]
  else []

/-- Steps of the `disconnect()` coroutine. -/
def stepDisconnect (s : St) : List St :=
  if s.dpc = 0 then
    if s.lock = 0 then [ { s with lock := 2, dpc := 1 } ] else []
  else if s.dpc = 1 then
    [ { s with shouldReconnect := false, running := false, lock := 0, dpc := 2 } ]
  else if s.dpc = 2 then
    [ { s with reconnectScheduled := false, dpc := 3 } ]
  else if s.dpc = 3 then
    [ { s with wsOpen := false, dpc := 4 } ]
  else if s.dpc = 4 then
    [ { s with sessionOpen := false, dpc := 5 } ]
  else if s.dpc = 5 then
    if s.listenerSpawned && !(s.lpc = 2) then [] else [ { s with dpc := 6 } ]
  else []

/-- Steps of the spawned `_listen` task. -/
def stepListener (s : St) : List St :=
  if s.listenerSpawned then
    if s.lpc = 0 then
      if s.wsOpen then [] else [ { s with lpc := 1 } ]
    else if s.lpc = 1 then
      if s.running && s.shouldReconnect then
        [ { s with reconnectScheduled := true, lpc := 2 } ]
      else
        [ { s with lpc := 2 } ]
    else []
  else []

/-- All successors of a state (empty for a terminal — or deadlocked — state). -/
def step (s : St) : List St :=
  stepConnect s ++ stepDisconnect s ++ stepListener s

/-- The desired outcome, per the claim: both calls have completed (`connect`
returned or raised, `disconnect` returned), the underlying connection and the
session are closed, the listener task (if it was ever spawned) has exited,
and no reconnection is scheduled. -/
def good (s : St) : Bool :=
  (s.cpc == 3 || s.cpc == 5) && s.dpc == 6 && !s.wsOpen && !s.sessionOpen &&
    (!s.listenerSpawned || s.lpc == 2) && !s.reconnectScheduled

/-- Rank of the connect program counter along its control flow. -/
def cRank : Nat → Nat
  | 0 => 0
  | 1 => 1
  | 2 => 2
  | 6 => 3
  | 4 => 2
  | 7 => 3
  | _ => 4

/-- Strictly increasing along every transition; bounds execution length. -/
def measure (s : St) : Nat :=
  cRank s.cpc + s.dpc + s.lpc

/-- One breadth-first expansion of a set of states. -/
def stepAll (l : List St) : List St :=
  (l ++ l.flatMap step).dedup

/-- Iterated expansion from `init`. -/
def reachIter : Nat → List St
  | 0 => [init]
  | n + 1 => stepAll (reachIter n)

/-- The reachable states of the scenario (the iterate is a fixpoint, as the
closure theorem below checks). -/
def reachSet : List St := reachIter 14

/-- A deterministic schedule: always run the first enabled transition. -/
def schedFirst : Nat → St
  | 0 => init
  | n + 1 => (step (schedFirst n)).headD (schedFirst n)

end WSModel

/-! ## Concrete databases and jobs used by the claim theorems below -/

/-- A job already completed. -/
def jobC1 : Job :=
  { id := 1, promptId := "p1", userId := 1, serverId := none, channelId := none,
    deliveryType := "channel", status := .completed, progress := 8, progressMax := 8,
    outputImages := some ["a.png"], errorMessage := none,
    startedAt := some 5, completedAt := some 9 }

/-- Database holding only the completed job. -/
def dbC1 : DB := { users := [⟨1, "u1"⟩], servers := [], jobs := [jobC1] }

/-- A completed (hence not Running) job with zeroed progress fields. -/
def jobC8 : Job :=
  { id := 1, promptId := "p8", userId := 1, serverId := none, channelId := none,
    deliveryType := "channel", status := .completed, progress := 0, progressMax := 0,
    outputImages := some ["x.png"], errorMessage := none,
    startedAt := some 2, completedAt := some 6 }

/-- Database holding only that job. -/
def dbC8 : DB := { users := [⟨1, "u8"⟩], servers := [], jobs := [jobC8] }

/-- A running job that an imageless executed event must not touch. -/
def jobC10 : Job :=
  { id := 1, promptId := "pX", userId := 1, serverId := none, channelId := none,
    deliveryType := "channel", status := .running, progress := 1, progressMax := 4,
    outputImages := none, errorMessage := none, startedAt := some 3, completedAt := none }

/-- Database holding only the running job. -/
def dbC10 : DB := { users := [⟨1, "u1"⟩], servers := [], jobs := [jobC10] }

/-- A running job about to complete. -/
def jobC3 : Job :=
  { id := 1, promptId := "p3", userId := 1, serverId := none, channelId := none,
    deliveryType := "channel", status := .running, progress := 3, progressMax := 8,
    outputImages := none, errorMessage := none, startedAt := some 2, completedAt := none }

/-- Database holding only the running job. -/
def dbC3 : DB := { users := [⟨1, "u3"⟩], servers := [], jobs := [jobC3] }

/-- The completion event for `jobC3`, which schedules a delivery. -/
def execC3 : DB × Option Job :=
  JobManager.on_executed dbC3 ⟨some "p3", none, none, some ["a.png"], none, none⟩ 9

/-- The timer registry right after the completion event was scheduled. -/
def timersC3 : DeliveryTimers :=
  (JobManager.schedule_delivery ⟨[]⟩ (execC3.2.getD jobC3)).1

/-- The persisted state mutates again (a straggler error event) before the
debounce timer expires. -/
def dbLaterC3 : DB :=
  JobManager.on_execution_error execC3.1
    ⟨some "p3", none, none, none, some "OOM", some "cuda out of memory"⟩ 11

/-- Job for the C3 witness. -/
def jobW3 : Job :=
  { id := 1, promptId := "q", userId := 1, serverId := none, channelId := none,
    deliveryType := "channel", status := .running, progress := 1, progressMax := 2,
    outputImages := none, errorMessage := none, startedAt := some 1, completedAt := none }

/-- `jobW3` after the first completion event (images `["a"]`, time 4). -/
def jobW3a : Job :=
  { jobW3 with status := .completed, completedAt := some 4, outputImages := some ["a"] }

/-- `jobW3` after the second completion event (images `["b"]`, time 7). -/
def jobW3b : Job :=
  { jobW3 with status := .completed, completedAt := some 7, outputImages := some ["b"] }

/-- Database holding only `jobW3`. -/
def dbW3 : DB := { users := [⟨1, "w3"⟩], servers := [], jobs := [jobW3] }

/-- `dbW3` after the first completion event. -/
def dbW3a : DB := { dbW3 with jobs := [jobW3a] }

/-- `dbW3` after the second completion event. -/
def dbW3b : DB := { dbW3 with jobs := [jobW3b] }

/-- Three pending jobs of one user, ceiling 3 reached. -/
def dbW4 : DB :=
  { users := [⟨1, "u4"⟩], servers := [],
    jobs := [
      { id := 1, promptId := "w1", userId := 1, serverId := none, channelId := none,
        deliveryType := "channel", status := .pending, progress := 0, progressMax := 0,
        outputImages := none, errorMessage := none, startedAt := none, completedAt := none },
      { id := 2, promptId := "w2", userId := 1, serverId := none, channelId := none,
        deliveryType := "channel", status := .pending, progress := 0, progressMax := 0,
        outputImages := none, errorMessage := none, startedAt := none, completedAt := none },
      { id := 3, promptId := "w3", userId := 1, serverId := none, channelId := none,
        deliveryType := "channel", status := .running, progress := 0, progressMax := 0,
        outputImages := none, errorMessage := none, startedAt := none, completedAt := none }] }

/-- Owner with three scopeless Pending jobs; the provided scope "S" has no
Server row. -/
def dbC5 : DB :=
  { users := [⟨1, "u5"⟩], servers := [],
    jobs := [
      { id := 1, promptId := "a1", userId := 1, serverId := none, channelId := none,
        deliveryType := "channel", status := .pending, progress := 0, progressMax := 0,
        outputImages := none, errorMessage := none, startedAt := none, completedAt := none },
      { id := 2, promptId := "a2", userId := 1, serverId := none, channelId := none,
        deliveryType := "channel", status := .pending, progress := 0, progressMax := 0,
        outputImages := none, errorMessage := none, startedAt := none, completedAt := none },
      { id := 3, promptId := "a3", userId := 1, serverId := none, channelId := none,
        deliveryType := "channel", status := .pending, progress := 0, progressMax := 0,
        outputImages := none, errorMessage := none, startedAt := none, completedAt := none }] }

/-- `dbC5` with one Pending job fewer: ceiling minus one active jobs. -/
def dbW5 : DB :=
  { users := [⟨1, "u5"⟩], servers := [],
    jobs := [
      { id := 1, promptId := "a1", userId := 1, serverId := none, channelId := none,
        deliveryType := "channel", status := .pending, progress := 0, progressMax := 0,
        outputImages := none, errorMessage := none, startedAt := none, completedAt := none },
      { id := 2, promptId := "a2", userId := 1, serverId := none, channelId := none,
        deliveryType := "channel", status := .pending, progress := 0, progressMax := 0,
        outputImages := none, errorMessage := none, startedAt := none, completedAt := none }] }

/-- A Running job whose cancellation will race a failing interrupt call. -/
def jobC6 : Job :=
  { id := 1, promptId := "p6", userId := 1, serverId := none, channelId := none,
    deliveryType := "channel", status := .running, progress := 2, progressMax := 9,
    outputImages := none, errorMessage := none, startedAt := some 3, completedAt := none }

/-- Database holding only that Running job. -/
def dbC6 : DB := { users := [⟨1, "u6"⟩], servers := [], jobs := [jobC6] }

/-- A Pending job to cancel cleanly. -/
def jobW6 : Job :=
  { id := 2, promptId := "p7", userId := 1, serverId := none, channelId := none,
    deliveryType := "channel", status := .pending, progress := 0, progressMax := 0,
    outputImages := none, errorMessage := none, startedAt := none, completedAt := none }

/-- Database holding only the Pending job. -/
def dbW6 : DB := { users := [⟨1, "u6"⟩], servers := [], jobs := [jobW6] }

/-- A registered handler that completes normally. -/
def handlerC7 : ComfyUIWebSocket.Handler :=
  { hid := 1, run := fun _ => .ok () }

/-- A callback registry with one handler registered for `progress`. -/
def cbsC7 : ComfyUIWebSocket.Callbacks :=
  { entries := [("progress", [handlerC7])] }

/-! ## General lemmas about the row-replacement pattern of the repository -/

/-- Mapping a conditional update over a list turns the first `find?` hit into
its updated form, provided the update still satisfies the search predicate. -/
theorem find?_map_update {α : Type} (p : α → Bool) (g : α → α) (l : List α) (a0 : α)
    (h : l.find? p = some a0) (hg : p (g a0) = true) :
    (l.map (fun a => if p a then g a else a)).find? p = some (g a0) := by
  induction l with
  | nil => simp at h
  | cons a t ih =>
    cases hp : p a with
    | true =>
      rw [List.find?_cons_of_pos _ hp] at h
      obtain rfl : a = a0 := by injection h
      rw [List.map_cons, if_pos hp, List.find?_cons_of_pos _ hg]
    | false =>
      rw [List.find?_cons_of_neg _ (by simp [hp])] at h
      rw [List.map_cons, if_neg (by simp [hp]), List.find?_cons_of_neg _ (by simp [hp])]
      exact ih h

/-- With pairwise distinct prompt ids, any member with the searched prompt id
is the row `find?` returned. -/
theorem eq_find_of_nodup (l : List Job) (pid : String) (j k : Job)
    (hU : (l.map Job.promptId).Nodup)
    (h : l.find? (fun x => x.promptId == pid) = some j)
    (hk : k ∈ l) (hkp : k.promptId = pid) : k = j := by
  have hj : j ∈ l := List.mem_of_find?_eq_some h
  have hjp : j.promptId = pid := by simpa using List.find?_some h
  exact List.inj_on_of_nodup_map hU hk hj (by rw [hkp, hjp])

/-- With pairwise distinct prompt ids, `find?` locates any member by its own
prompt id. -/
theorem findJob_of_mem_nodup (l : List Job) (j : Job) (hm : j ∈ l)
    (hU : (l.map Job.promptId).Nodup) :
    l.find? (fun k => k.promptId == j.promptId) = some j := by
  cases hf : l.find? (fun k => k.promptId == j.promptId) with
  | none =>
    rw [List.find?_eq_none] at hf
    have hcontra := hf j hm
    simp at hcontra
  | some j0 =>
    rw [eq_find_of_nodup l j.promptId j0 j hU hf hm rfl]

/-- Replacing the hit of `find?` by an update and updating every hit agree when
prompt ids are pairwise distinct. -/
theorem map_update_congr (l : List Job) (pid : String) (j : Job) (f : Job → Job)
    (hU : (l.map Job.promptId).Nodup)
    (h : l.find? (fun x => x.promptId == pid) = some j) :
    l.map (fun k => if k.promptId == pid then f j else k)
      = l.map (fun k => if k.promptId == pid then f k else k) := by
  apply List.map_congr_left
  intro k hk
  by_cases hkp : k.promptId = pid
  · rw [eq_find_of_nodup l pid j k hU h hk hkp]
  · simp [hkp]

/-- `replaceJob` form of `find?_map_update`: after committing a mutated row
whose prompt id is the searched one, `find?` returns the mutated row. -/
theorem find?_replace (l : List Job) (pid : String) (j jn : Job)
    (h : l.find? (fun k => k.promptId == pid) = some j) (hp : jn.promptId = pid) :
    (l.map (fun k => if k.promptId == jn.promptId then jn else k)).find?
      (fun k => k.promptId == pid) = some jn := by
  have hfun : (fun k : Job => if k.promptId == jn.promptId then jn else k)
      = (fun k : Job => if k.promptId == pid then jn else k) := by
    funext k; rw [hp]
  rw [hfun]
  exact find?_map_update (fun k => k.promptId == pid) (fun _ => jn) l j h (by simp [hp])

/-- `applyStatusUpdate` never touches the prompt id. -/
theorem applyStatusUpdate_promptId (j : Job) (st : JobStatus) (em : Option String)
    (oi : Option (List String)) (now : Nat) :
    (Repository.applyStatusUpdate j st em oi now).promptId = j.promptId := by
  unfold Repository.applyStatusUpdate
  cases em <;> cases oi <;> split_ifs <;> rfl

/-- `applyStatusUpdate` sets exactly the requested status. -/
theorem applyStatusUpdate_status (j : Job) (st : JobStatus) (em : Option String)
    (oi : Option (List String)) (now : Nat) :
    (Repository.applyStatusUpdate j st em oi now).status = st := by
  unfold Repository.applyStatusUpdate
  cases em <;> cases oi <;> split_ifs <;> rfl

/-- After `update_job_status` on a present row, the row reads back as the
mutated row. -/
theorem findJob_after_update (db : DB) (pid : String) (j : Job) (st : JobStatus)
    (em : Option String) (oi : Option (List String)) (now : Nat)
    (hfind : Repository.findJob db pid = some j) :
    Repository.findJob (Repository.update_job_status db pid st em oi now).1 pid
      = some (Repository.applyStatusUpdate j st em oi now) := by
  have hfind' : db.jobs.find? (fun k => k.promptId == pid) = some j := hfind
  have hjp : j.promptId = pid := by
    simpa using List.find?_some hfind'
  unfold Repository.update_job_status
  rw [hfind]
  show Repository.findJob (Repository.replaceJob db _) pid = _
  unfold Repository.findJob Repository.replaceJob
  exact find?_replace db.jobs pid j _ hfind'
    (by rw [applyStatusUpdate_promptId, hjp])

/-- After `update_job_progress` on a present row, the row reads back with only
the two progress fields changed. -/
theorem findJob_after_progress (db : DB) (pid : String) (j : Job) (v m : Int)
    (hfind : Repository.findJob db pid = some j) :
    Repository.findJob (Repository.update_job_progress db pid v m).1 pid
      = some { j with progress := v, progressMax := m } := by
  have hfind' : db.jobs.find? (fun k => k.promptId == pid) = some j := hfind
  have hjp : j.promptId = pid := by
    simpa using List.find?_some hfind'
  unfold Repository.update_job_progress
  rw [hfind]
  show Repository.findJob (Repository.replaceJob db _) pid = _
  unfold Repository.findJob Repository.replaceJob
  exact find?_replace db.jobs pid j _ hfind' hjp

/-! ## Claim C1 -/

/-- C1, counterexample: the persisted status of a Job already terminal
(Completed) is overwritten to Running by a later start event for the same
correlationId — the transition is NOT rejected as a no-op. -/
theorem claim_C1_counterexample :
    JobStatus.isTerminal jobC1.status = true ∧
    Repository.findJob dbC1 "p1" = some jobC1 ∧
    (Repository.findJob
        (JobManager.processEvent dbC1
          (.executionStart ⟨some "p1", none, none, none, none, none⟩) 20).1 "p1").map
      Job.status = some .running := by decide

/-- C1, amended: the transition layer has no terminal-state guard at all.
Processing a start, completion-with-images, or error event for an existing
correlationId overwrites the persisted status to Running / Completed / Failed
unconditionally — whatever the current status, terminal included; a progress
event never changes the status. -/
theorem claim_C1_amended (db : DB) (pid : String) (j : Job) (now : Nat)
    (hfind : Repository.findJob db pid = some j) (hpid : pid ≠ "") :
    ∀ (v m : Int) (imgs : List String) (et em : Option String),
      (Repository.findJob
          (JobManager.processEvent db
            (.executionStart ⟨some pid, none, none, none, none, none⟩) now).1 pid).map
        Job.status = some .running ∧
      (Repository.findJob
          (JobManager.processEvent db
            (.executed ⟨some pid, none, none, some imgs, none, none⟩) now).1 pid).map
        Job.status = some .completed ∧
      (Repository.findJob
          (JobManager.processEvent db
            (.executionError ⟨some pid, none, none, none, et, em⟩) now).1 pid).map
        Job.status = some .failed ∧
      (Repository.findJob
          (JobManager.processEvent db
            (.progress ⟨some pid, some v, some m, none, none, none⟩) now).1 pid).map
        Job.status = some j.status := by
  intro v m imgs et em
  have htr : truthy (some pid) = true := by simp [truthy, hpid]
  refine ⟨?_, ?_, ?_, ?_⟩
  · show (Repository.findJob (JobManager.on_execution_start db _ now) pid).map
      Job.status = some .running
    unfold JobManager.on_execution_start
    rw [htr]
    simp only [Option.getD_some, if_true]
    rw [findJob_after_update db pid j .running none none now hfind]
    simp [applyStatusUpdate_status]
  · show (Repository.findJob (JobManager.on_executed db _ now).1 pid).map
      Job.status = some .completed
    unfold JobManager.on_executed
    simp only [htr, Option.getD_some, if_true]
    rw [findJob_after_update db pid j .completed none (some imgs) now hfind]
    simp [applyStatusUpdate_status]
  · show (Repository.findJob (JobManager.on_execution_error db _ now) pid).map
      Job.status = some .failed
    unfold JobManager.on_execution_error
    rw [htr]
    simp only [Option.getD_some, if_true]
    rw [findJob_after_update db pid j .failed _ none now hfind]
    simp [applyStatusUpdate_status]
  · show (Repository.findJob (JobManager.on_progress db _) pid).map
      Job.status = some j.status
    unfold JobManager.on_progress
    simp only [htr, Option.getD_some, if_true]
    rw [findJob_after_progress db pid j v m hfind]
    simp

/-- C1, witness for the amended theorem, at the terminal job `jobC1`. -/
theorem claim_C1_witness :
    (Repository.findJob dbC1 "p1" = some jobC1 ∧ "p1" ≠ "") ∧
    ((Repository.findJob
        (JobManager.processEvent dbC1
          (.executed ⟨some "p1", none, none, some ["b.png"], none, none⟩) 21).1 "p1").map
      Job.status = some .completed) :=
  ⟨⟨by decide, by decide⟩,
    (claim_C1_amended dbC1 "p1" jobC1 21 (by decide) (by decide) 0 0 ["b.png"] none none).2.1⟩

/-! ## Claim C8 -/

/-- C8, counterexample: a progress event for a Job that is NOT Running is not
ignored — `update_job_progress` has no status check, so the progress fields
of the Completed job change. -/
theorem claim_C8_counterexample :
    jobC8.status ≠ .running ∧ jobC8.progress = 0 ∧ jobC8.progressMax = 0 ∧
    (Repository.findJob
        (JobManager.on_progress dbC8 ⟨some "p8", some 7, some 10, none, none, none⟩)
        "p8").map (fun k => (k.progress, k.progressMax)) = some (7, 10) := by decide

/-- C8, amended: a progress event updates only the matching Job's
`progress`/`progress_max` fields — never its status or any other field, and
never any other row — and it does so whenever the row exists, whatever its
status (not only when Running); when no row matches, nothing changes. -/
theorem claim_C8_amended (db : DB) (pid : String) (v m : Int) :
    (Repository.findJob db pid = none →
      Repository.update_job_progress db pid v m = (db, none)) ∧
    (∀ j, Repository.findJob db pid = some j → (db.jobs.map Job.promptId).Nodup →
      (Repository.update_job_progress db pid v m).1.users = db.users ∧
      (Repository.update_job_progress db pid v m).1.servers = db.servers ∧
      (Repository.update_job_progress db pid v m).1.jobs =
        db.jobs.map (fun k => if k.promptId == pid
          then { k with progress := v, progressMax := m } else k)) := by
  constructor
  · intro h
    unfold Repository.update_job_progress
    rw [h]
  · intro j hfind hU
    have hfind' : db.jobs.find? (fun k => k.promptId == pid) = some j := hfind
    have hjp : j.promptId = pid := by
      simpa using List.find?_some hfind'
    unfold Repository.update_job_progress
    rw [hfind]
    refine ⟨rfl, rfl, ?_⟩
    show (Repository.replaceJob db _).jobs = _
    unfold Repository.replaceJob
    have hfun : (fun k : Job =>
          if k.promptId == ({ j with progress := v, progressMax := m } : Job).promptId
          then ({ j with progress := v, progressMax := m } : Job) else k)
        = (fun k : Job => if k.promptId == pid
          then ({ j with progress := v, progressMax := m } : Job) else k) := by
      funext k
      rw [show ({ j with progress := v, progressMax := m } : Job).promptId = pid from hjp]
    rw [hfun]
    exact map_update_congr db.jobs pid j
      (fun k => { k with progress := v, progressMax := m }) hU hfind'

/-- C8, witness for the amended theorem at the concrete database `dbC8`. -/
theorem claim_C8_witness :
    (Repository.findJob dbC8 "p8" = some jobC8 ∧
      (dbC8.jobs.map Job.promptId).Nodup) ∧
    ((Repository.update_job_progress dbC8 "p8" 7 10).1.users = dbC8.users ∧
     (Repository.update_job_progress dbC8 "p8" 7 10).1.servers = dbC8.servers ∧
     (Repository.update_job_progress dbC8 "p8" 7 10).1.jobs =
       dbC8.jobs.map (fun k => if k.promptId == "p8"
         then { k with progress := 7, progressMax := 10 } else k)) :=
  ⟨⟨by decide, by decide⟩,
    (claim_C8_amended dbC8 "p8" 7 10).2 jobC8 (by decide) (by decide)⟩

/-! ## Claim C10 -/

/-- C10: an executed event lacking a usable `prompt_id` (absent or falsy) or
whose output has no `images` key is a complete no-op: the database is
untouched and no delivery is scheduled. -/
theorem claim_C10 (db : DB) (d : EventData) (now : Nat)
    (h : d.promptId = none ∨ d.promptId = some "" ∨ d.outputImages = none) :
    JobManager.on_executed db d now = (db, none) := by
  unfold JobManager.on_executed
  rcases h with h | h | h
  · cases ho : d.outputImages <;> simp [truthy, h]
  · cases ho : d.outputImages <;> simp [truthy, h]
  · simp [h]

/-- C10, witness: even with a Running job present under that correlationId, an
executed event without an `images` key changes nothing and schedules nothing. -/
theorem claim_C10_witness :
    (jobC10.status = .running ∧ Repository.findJob dbC10 "pX" = some jobC10) ∧
    JobManager.on_executed dbC10 ⟨some "pX", none, none, none, none, none⟩ 5
      = (dbC10, none) :=
  ⟨by decide, claim_C10 dbC10 ⟨some "pX", none, none, none, none, none⟩ 5
    (Or.inr (Or.inr rfl))⟩

/-! ## Claim C3 -/

/-- Searching among the entries kept by a cancel-and-replace never hits the
removed key. -/
theorem find?_filter_not {α : Type} (l : List α) (p : α → Bool) :
    (l.filter (fun e => !(p e))).find? p = none := by
  rw [List.find?_eq_none]
  intro x hx
  rw [List.mem_filter] at hx
  simp at hx
  simp [hx.2]

/-- No surviving entry counts against the removed key. -/
theorem countP_filter_not {α : Type} (l : List α) (p : α → Bool) :
    (l.filter (fun e => !(p e))).countP p = 0 := by
  rw [List.countP_eq_zero]
  intro a ha
  rw [List.mem_filter] at ha
  simp at ha
  simp [ha.2]

/-- `find?` over a cancel-and-replace registry returns the fresh entry. -/
theorem find?_filter_append {α : Type} (l : List α) (p : α → Bool) (x : α)
    (hx : p x = true) :
    ((l.filter (fun e => !(p e))) ++ [x]).find? p = some x := by
  induction l with
  | nil => simp [List.find?_cons, hx]
  | cons a t ih =>
    cases hp : p a with
    | true => simpa [List.filter_cons, hp] using ih
    | false =>
      rw [List.filter_cons]
      simp only [hp, Bool.not_false, if_true, List.cons_append]
      rw [List.find?_cons_of_neg _ (by simp [hp])]
      exact ih

/-- When `_on_executed` hands a job to `_schedule_delivery`, the handler ran
`update_job_status` on a truthy prompt id with an `images` key present. -/
theorem on_executed_eq_update (db : DB) (pid : String) (imgs : List String)
    (n : Nat) (hpid : truthy (some pid) = true) :
    JobManager.on_executed db ⟨some pid, none, none, some imgs, none, none⟩ n
      = Repository.update_job_status db pid .completed none (some imgs) n := by
  show (if truthy (some pid)
      then Repository.update_job_status db ((some pid).getD "") .completed none (some imgs) n
      else (db, none)) = _
  rw [if_pos hpid]
  rfl

/-- A scheduled completion snapshot carries the searched prompt id and is the
row persisted by the completion event that produced it. -/
theorem on_executed_some (db db' : DB) (pid : String) (imgs : List String)
    (n : Nat) (j' : Job)
    (h : JobManager.on_executed db ⟨some pid, none, none, some imgs, none, none⟩ n
      = (db', some j')) :
    j'.promptId = pid ∧ Repository.findJob db' pid = some j' := by
  by_cases htr : truthy (some pid) = true
  · rw [on_executed_eq_update db pid imgs n htr] at h
    cases hfind : Repository.findJob db pid with
    | none =>
      unfold Repository.update_job_status at h
      rw [hfind] at h
      simp [Prod.ext_iff] at h
    | some j =>
      have hfind' : db.jobs.find? (fun k => k.promptId == pid) = some j := hfind
      have hjp : j.promptId = pid := by
        simpa using List.find?_some hfind'
      unfold Repository.update_job_status at h
      rw [hfind] at h
      simp only [Prod.mk.injEq, Option.some.injEq] at h
      obtain ⟨hdb, hj⟩ := h
      constructor
      · rw [← hj, applyStatusUpdate_promptId, hjp]
      · rw [← hdb, ← hj]
        show Repository.findJob (Repository.replaceJob db _) pid = _
        unfold Repository.findJob Repository.replaceJob
        exact find?_replace db.jobs pid j _ hfind'
          (by rw [applyStatusUpdate_promptId, hjp])
  · exfalso
    have hno : JobManager.on_executed db ⟨some pid, none, none, some imgs, none, none⟩ n
        = (db, none) := by
      show (if truthy (some pid)
          then Repository.update_job_status db ((some pid).getD "") .completed
            none (some imgs) n
          else (db, none)) = _
      rw [if_neg htr]
    rw [hno] at h
    simp [Prod.ext_iff] at h

/-- C3, amended: the debounce registry keeps exactly one live timer per
correlationId; a second completion event within the window cancels the first
timer (which then never fires) and exactly one delivery fires, receiving the
Job snapshot passed to the second `schedule` call — which equals the
persisted state as of the second event, but is NOT re-read from the
Repository at expiry time. -/
theorem claim_C3_amended (t : DeliveryTimers) (db db1 db2 : DB) (pid : String)
    (j1 j2 : Job) (imgs1 imgs2 : List String) (n1 n2 : Nat)
    (h1 : JobManager.on_executed db ⟨some pid, none, none, some imgs1, none, none⟩ n1
      = (db1, some j1))
    (h2 : JobManager.on_executed db1 ⟨some pid, none, none, some imgs2, none, none⟩ n2
      = (db2, some j2)) :
    JobManager.expiryPayload (JobManager.schedule_delivery t j1).1 pid = some j1 ∧
    (JobManager.schedule_delivery (JobManager.schedule_delivery t j1).1 j2).2 = true ∧
    JobManager.expiryPayload
        (JobManager.schedule_delivery (JobManager.schedule_delivery t j1).1 j2).1 pid
      = some j2 ∧
    ((JobManager.schedule_delivery (JobManager.schedule_delivery t j1).1 j2).1.entries.countP
        (fun e => e.1 == pid)) = 1 ∧
    Repository.findJob db2 pid = some j2 := by
  obtain ⟨hp1, -⟩ := on_executed_some db db1 pid imgs1 n1 j1 h1
  obtain ⟨hp2, hro2⟩ := on_executed_some db1 db2 pid imgs2 n2 j2 h2
  refine ⟨?_, ?_, ?_, ?_, hro2⟩
  · unfold JobManager.expiryPayload JobManager.schedule_delivery
    rw [hp1]
    rw [find?_filter_append t.entries (fun e => e.1 == pid) (pid, j1) (by simp)]
    rfl
  · unfold JobManager.schedule_delivery
    simp only [hp1, hp2]
    rw [find?_filter_append t.entries (fun e => e.1 == pid) (pid, j1) (by simp)]
    rfl
  · unfold JobManager.expiryPayload JobManager.schedule_delivery
    simp only [hp1, hp2]
    rw [find?_filter_append]
    · rfl
    · simp
  · unfold JobManager.schedule_delivery
    simp only [hp1, hp2]
    rw [List.countP_append, countP_filter_not]
    simp

/-- C3, counterexample: on natural expiry the delivery callback receives the
snapshot stored at schedule time, which differs from the current persisted
state of the Job re-read at expiry time — the claim's re-read behaviour is
not what the code does. -/
theorem claim_C3_counterexample :
    execC3.2.isSome = true ∧
    (JobManager.expiryPayload timersC3 "p3").isSome = true ∧
    (JobManager.expiryPayloadClaim dbLaterC3 "p3").isSome = true ∧
    JobManager.expiryPayload timersC3 "p3" ≠ JobManager.expiryPayloadClaim dbLaterC3 "p3"
    := by decide

/-- C3, witness: two concrete completion events one debounce window apart. -/
theorem claim_C3_witness :
    (JobManager.on_executed dbW3 ⟨some "q", none, none, some ["a"], none, none⟩ 4
        = (dbW3a, some jobW3a) ∧
      JobManager.on_executed dbW3a ⟨some "q", none, none, some ["b"], none, none⟩ 7
        = (dbW3b, some jobW3b)) ∧
    (JobManager.expiryPayload (JobManager.schedule_delivery ⟨[]⟩ jobW3a).1 "q"
        = some jobW3a ∧
      (JobManager.schedule_delivery (JobManager.schedule_delivery ⟨[]⟩ jobW3a).1 jobW3b).2
        = true ∧
      JobManager.expiryPayload
          (JobManager.schedule_delivery
            (JobManager.schedule_delivery ⟨[]⟩ jobW3a).1 jobW3b).1 "q" = some jobW3b ∧
      ((JobManager.schedule_delivery
          (JobManager.schedule_delivery ⟨[]⟩ jobW3a).1 jobW3b).1.entries.countP
        (fun e => e.1 == "q")) = 1 ∧
      Repository.findJob dbW3b "q" = some jobW3b) :=
  ⟨⟨by decide, by decide⟩,
    claim_C3_amended ⟨[]⟩ dbW3 dbW3a dbW3b "q" jobW3a jobW3b ["a"] ["b"] 4 7
      (by decide) (by decide)⟩

/-! ## Claim C4 -/

/-- `get_or_create_user` never touches the jobs table. -/
theorem get_or_create_user_jobs (db : DB) (uid : String) :
    (Repository.get_or_create_user db uid).1.jobs = db.jobs := by
  unfold Repository.get_or_create_user
  cases Repository.getUser db uid <;> rfl

/-- A truthy optional string is a present, non-empty string. -/
theorem truthy_iff (o : Option String) :
    truthy o = true ↔ ∃ s, o = some s ∧ s ≠ "" := by
  cases o <;> simp [truthy]

/-- C4: admission rejection fails the call before any backend submission (the
queue-prompt call never appears in the trace and no row is written); on
acceptance a Pending row is persisted only once the submission returned a
truthy `prompt_id`; a raising submission or a missing `prompt_id` surfaces an
error with no Job row created. -/
theorem claim_C4 (db : DB) (uid : String) (sid : Option String) (ch : Option String)
    (dt : String) (submit : Except Unit (Option String)) :
    (Repository.count_user_pending_jobs (Repository.get_or_create_user db uid).1 uid sid ≥
        JobManager.admissionCeiling (Repository.get_or_create_user db uid).1 sid →
      (JobManager.create_job db uid sid ch dt submit).calls = [] ∧
      (JobManager.create_job db uid sid ch dt submit).result =
        .error (.queueLimit
          (JobManager.admissionCeiling (Repository.get_or_create_user db uid).1 sid)) ∧
      (JobManager.create_job db uid sid ch dt submit).db.jobs = db.jobs) ∧
    (∀ j, (JobManager.create_job db uid sid ch dt submit).result = .ok j →
      j.status = .pending ∧
      j ∈ (JobManager.create_job db uid sid ch dt submit).db.jobs ∧
      submit = .ok (some j.promptId) ∧ j.promptId ≠ "" ∧
      (JobManager.create_job db uid sid ch dt submit).calls = [.queuePrompt]) ∧
    (Repository.count_user_pending_jobs (Repository.get_or_create_user db uid).1 uid sid <
        JobManager.admissionCeiling (Repository.get_or_create_user db uid).1 sid →
      submit = .error () →
      (JobManager.create_job db uid sid ch dt submit).result = .error .submitFailed ∧
      (JobManager.create_job db uid sid ch dt submit).db.jobs = db.jobs ∧
      (JobManager.create_job db uid sid ch dt submit).calls = [.queuePrompt]) ∧
    (Repository.count_user_pending_jobs (Repository.get_or_create_user db uid).1 uid sid <
        JobManager.admissionCeiling (Repository.get_or_create_user db uid).1 sid →
      ∀ pidOpt, submit = .ok pidOpt → truthy pidOpt = false →
      (JobManager.create_job db uid sid ch dt submit).result = .error .noPromptId ∧
      (JobManager.create_job db uid sid ch dt submit).db.jobs = db.jobs ∧
      (JobManager.create_job db uid sid ch dt submit).calls = [.queuePrompt]) := by
  have hjobs1 := get_or_create_user_jobs db uid
  by_cases hq : Repository.count_user_pending_jobs (Repository.get_or_create_user db uid).1
      uid sid ≥ JobManager.admissionCeiling (Repository.get_or_create_user db uid).1 sid
  · have hout : JobManager.create_job db uid sid ch dt submit =
        { db := (Repository.get_or_create_user db uid).1, calls := [],
          result := .error (.queueLimit
            (JobManager.admissionCeiling (Repository.get_or_create_user db uid).1 sid)) } := by
      unfold JobManager.create_job
      rw [if_pos hq]
    refine ⟨fun _ => by rw [hout]; exact ⟨rfl, rfl, hjobs1⟩, ?_, ?_, ?_⟩
    · intro j hj
      rw [hout] at hj
      simp at hj
    · intro hlt
      exact absurd hlt (by omega)
    · intro hlt
      exact absurd hlt (by omega)
  · cases submit with
    | error e =>
      have hout : JobManager.create_job db uid sid ch dt (.error e) =
          { db := (Repository.get_or_create_user db uid).1, calls := [.queuePrompt],
            result := .error .submitFailed } := by
        unfold JobManager.create_job
        rw [if_neg hq]
      refine ⟨fun hge => absurd hge hq, ?_, ?_, ?_⟩
      · intro j hj
        rw [hout] at hj
        simp at hj
      · intro _ _
        rw [hout]
        exact ⟨rfl, hjobs1, rfl⟩
      · intro _ p hp
        exact nomatch hp
    | ok pidOpt =>
      cases htr : truthy pidOpt with
      | false =>
        have hout : JobManager.create_job db uid sid ch dt (.ok pidOpt) =
            { db := (Repository.get_or_create_user db uid).1, calls := [.queuePrompt],
              result := .error .noPromptId } := by
          unfold JobManager.create_job
          rw [if_neg hq]
          show (if truthy pidOpt = true then _ else _) = _
          rw [if_neg (by rw [htr]; exact fun hc => nomatch hc)]
        refine ⟨fun hge => absurd hge hq, ?_, ?_, ?_⟩
        · intro j hj
          rw [hout] at hj
          simp at hj
        · intro _ hs
          exact nomatch hs
        · intro _ p hp _
          rw [hout]
          exact ⟨rfl, hjobs1, rfl⟩
      | true =>
        obtain ⟨s, hps, hs⟩ := (truthy_iff pidOpt).mp htr
        subst hps
        cases hcj : Repository.create_job (Repository.get_or_create_user db uid).1 s
            uid sid ch dt with
        | error e2 =>
          have hout : JobManager.create_job db uid sid ch dt (.ok (some s)) =
              { db := (Repository.get_or_create_user db uid).1, calls := [.queuePrompt],
                result := .error .userNotFound } := by
            unfold JobManager.create_job
            rw [if_neg hq]
            show (if truthy (some s) = true then _ else _) = _
            rw [if_pos htr]
            show (match Repository.create_job (Repository.get_or_create_user db uid).1 s
                uid sid ch dt with
              | Except.error _ =>
                ({ db := (Repository.get_or_create_user db uid).1, calls := [.queuePrompt],
                   result := .error .userNotFound } : JobManager.CreateOutcome)
              | Except.ok r =>
                { db := r.1, calls := [.queuePrompt], result := .ok r.2 }) = _
            rw [hcj]
          refine ⟨fun hge => absurd hge hq, ?_, ?_, ?_⟩
          · intro j hj
            rw [hout] at hj
            simp at hj
          · intro _ hs2
            exact nomatch hs2
          · intro _ p hp htr2
            have hp2 : p = some s := (Except.ok.inj hp).symm
            rw [hp2] at htr2
            rw [htr] at htr2
            exact nomatch htr2
        | ok r =>
          have hout : JobManager.create_job db uid sid ch dt (.ok (some s)) =
              { db := r.1, calls := [.queuePrompt], result := .ok r.2 } := by
            unfold JobManager.create_job
            rw [if_neg hq]
            show (if truthy (some s) = true then _ else _) = _
            rw [if_pos htr]
            show (match Repository.create_job (Repository.get_or_create_user db uid).1 s
                uid sid ch dt with
              | Except.error _ =>
                ({ db := (Repository.get_or_create_user db uid).1, calls := [.queuePrompt],
                   result := .error .userNotFound } : JobManager.CreateOutcome)
              | Except.ok r =>
                { db := r.1, calls := [.queuePrompt], result := .ok r.2 }) = _
            rw [hcj]
          cases hu : Repository.getUser (Repository.get_or_create_user db uid).1 uid with
          | none =>
            exfalso
            unfold Repository.create_job at hcj
            rw [hu] at hcj
            exact nomatch hcj
          | some u =>
            unfold Repository.create_job at hcj
            rw [hu] at hcj
            simp only [Except.ok.injEq] at hcj
            refine ⟨fun hge => absurd hge hq, ?_, ?_, ?_⟩
            · intro j hj
              rw [hout] at hj
              simp only [Except.ok.injEq] at hj
              subst hj
              rw [hout, ← hcj]
              exact ⟨rfl, by simp, rfl, hs, rfl⟩
            · intro _ hs2
              exact nomatch hs2
            · intro _ p hp htr2
              have hp2 : p = some s := (Except.ok.inj hp).symm
              rw [hp2] at htr2
              rw [htr] at htr2
              exact nomatch htr2

/-- C4, witness: with the ceiling reached, the call is rejected with no
backend submission and no new row. -/
theorem claim_C4_witness :
    (Repository.count_user_pending_jobs (Repository.get_or_create_user dbW4 "u4").1 "u4" none ≥
      JobManager.admissionCeiling (Repository.get_or_create_user dbW4 "u4").1 none) ∧
    ((JobManager.create_job dbW4 "u4" none none "channel" (.ok (some "p9"))).calls = [] ∧
     (JobManager.create_job dbW4 "u4" none none "channel" (.ok (some "p9"))).result =
       .error (.queueLimit
         (JobManager.admissionCeiling (Repository.get_or_create_user dbW4 "u4").1 none)) ∧
     (JobManager.create_job dbW4 "u4" none none "channel" (.ok (some "p9"))).db.jobs =
       dbW4.jobs) :=
  ⟨by decide,
    (claim_C4 dbW4 "u4" none none "channel" (.ok (some "p9"))).1 (by decide)⟩

/-! ## Claim C5 -/

/-- `create_job` when the active count has reached the ceiling. -/
theorem create_job_eq_reject (db : DB) (uid : String) (sid ch : Option String)
    (dt : String) (submit : Except Unit (Option String))
    (hq : JobManager.admissionCeiling (Repository.get_or_create_user db uid).1 sid ≤
      Repository.count_user_pending_jobs (Repository.get_or_create_user db uid).1 uid sid) :
    JobManager.create_job db uid sid ch dt submit =
      { db := (Repository.get_or_create_user db uid).1, calls := [],
        result := .error (.queueLimit
          (JobManager.admissionCeiling (Repository.get_or_create_user db uid).1 sid)) } := by
  unfold JobManager.create_job
  rw [if_pos hq]

/-- `create_job` when admitted but the submission raised. -/
theorem create_job_eq_submitFailed (db : DB) (uid : String) (sid ch : Option String)
    (dt : String) (e : Unit)
    (hq : ¬(Repository.count_user_pending_jobs (Repository.get_or_create_user db uid).1
        uid sid ≥ JobManager.admissionCeiling (Repository.get_or_create_user db uid).1 sid)) :
    JobManager.create_job db uid sid ch dt (.error e) =
      { db := (Repository.get_or_create_user db uid).1, calls := [.queuePrompt],
        result := .error .submitFailed } := by
  unfold JobManager.create_job
  rw [if_neg hq]

/-- `create_job` when admitted but the response lacked a truthy `prompt_id`. -/
theorem create_job_eq_noPromptId (db : DB) (uid : String) (sid ch : Option String)
    (dt : String) (pidOpt : Option String)
    (hq : ¬(Repository.count_user_pending_jobs (Repository.get_or_create_user db uid).1
        uid sid ≥ JobManager.admissionCeiling (Repository.get_or_create_user db uid).1 sid))
    (htr : truthy pidOpt = false) :
    JobManager.create_job db uid sid ch dt (.ok pidOpt) =
      { db := (Repository.get_or_create_user db uid).1, calls := [.queuePrompt],
        result := .error .noPromptId } := by
  unfold JobManager.create_job
  rw [if_neg hq]
  show (if truthy pidOpt = true then _ else _) = _
  rw [if_neg (by rw [htr]; exact fun hc => nomatch hc)]

/-- `create_job` when admitted, with a truthy `prompt_id`, as a function of the
repository insert's outcome. -/
theorem create_job_eq_insert (db : DB) (uid : String) (sid ch : Option String)
    (dt : String) (s : String)
    (hq : ¬(Repository.count_user_pending_jobs (Repository.get_or_create_user db uid).1
        uid sid ≥ JobManager.admissionCeiling (Repository.get_or_create_user db uid).1 sid))
    (htr : truthy (some s) = true) :
    JobManager.create_job db uid sid ch dt (.ok (some s)) =
      (match Repository.create_job (Repository.get_or_create_user db uid).1 s
          uid sid ch dt with
        | Except.error _ =>
          ({ db := (Repository.get_or_create_user db uid).1, calls := [.queuePrompt],
             result := .error .userNotFound } : JobManager.CreateOutcome)
        | Except.ok r =>
          { db := r.1, calls := [.queuePrompt], result := .ok r.2 }) := by
  unfold JobManager.create_job
  rw [if_neg hq]
  show (if truthy (some s) = true then _ else _) = _
  rw [if_pos htr]
  rfl

/-- C5, amended: admission rejects with the queue-full error exactly when the
count computed by `count_user_pending_jobs` (scope-restricted only when the
provided scope's Server row exists) has reached the ceiling
(`max_queue_per_user` when that row exists, else the global default 3); on
any smaller count, no queue-full error is possible; the error always carries
the effective ceiling. -/
theorem claim_C5_amended (db : DB) (uid : String) (sid ch : Option String)
    (dt : String) (submit : Except Unit (Option String)) :
    ((JobManager.create_job db uid sid ch dt submit).result =
        .error (.queueLimit
          (JobManager.admissionCeiling (Repository.get_or_create_user db uid).1 sid)) ↔
      JobManager.admissionCeiling (Repository.get_or_create_user db uid).1 sid ≤
        Repository.count_user_pending_jobs (Repository.get_or_create_user db uid).1 uid sid) ∧
    (∀ mq, (JobManager.create_job db uid sid ch dt submit).result =
        .error (.queueLimit mq) →
      mq = JobManager.admissionCeiling (Repository.get_or_create_user db uid).1 sid) := by
  by_cases hq : Repository.count_user_pending_jobs (Repository.get_or_create_user db uid).1
      uid sid ≥ JobManager.admissionCeiling (Repository.get_or_create_user db uid).1 sid
  · rw [create_job_eq_reject db uid sid ch dt submit hq]
    refine ⟨⟨fun _ => hq, fun _ => rfl⟩, ?_⟩
    intro mq h
    have h2 := Except.error.inj h
    exact (JobManager.CreateErr.queueLimit.inj h2).symm
  · have hne : ∀ mq, (JobManager.create_job db uid sid ch dt submit).result ≠
        .error (.queueLimit mq) := by
      intro mq
      cases submit with
      | error e =>
        rw [create_job_eq_submitFailed db uid sid ch dt e hq]
        simp
      | ok pidOpt =>
        cases htr : truthy pidOpt with
        | false =>
          rw [create_job_eq_noPromptId db uid sid ch dt pidOpt hq htr]
          simp
        | true =>
          obtain ⟨s, hps, hs⟩ := (truthy_iff pidOpt).mp htr
          subst hps
          rw [create_job_eq_insert db uid sid ch dt s hq htr]
          cases Repository.create_job (Repository.get_or_create_user db uid).1 s
              uid sid ch dt with
          | error e2 => simp
          | ok r => simp
    refine ⟨⟨fun h => (hne _ h).elim, fun hle => absurd hle hq⟩, ?_⟩
    intro mq h
    exact (hne mq h).elim

/-- C5, counterexample: with a provided but unregistered scope, the claim's
scope-restricted count is 0 < 3, so the claim predicts acceptance — but the
code counts globally (the restriction applies only when the Server row
exists) and rejects with the queue-full error. -/
theorem claim_C5_counterexample :
    JobManager.claimActiveCount dbC5 "u5" (some "S") <
      JobManager.admissionCeiling dbC5 (some "S") ∧
    (JobManager.create_job dbC5 "u5" (some "S") none "channel" (.ok (some "p9"))).result
      = .error (.queueLimit 3) := by decide

/-- C5, witness: at the boundary, 3 active jobs reject with the queue-full
error and 2 active jobs (ceiling minus one) cannot produce it. -/
theorem claim_C5_witness :
    ((JobManager.create_job dbC5 "u5" none none "channel" (.ok (some "p9"))).result =
        .error (.queueLimit
          (JobManager.admissionCeiling (Repository.get_or_create_user dbC5 "u5").1 none)) ↔
      JobManager.admissionCeiling (Repository.get_or_create_user dbC5 "u5").1 none ≤
        Repository.count_user_pending_jobs (Repository.get_or_create_user dbC5 "u5").1
          "u5" none) ∧
    ¬((JobManager.create_job dbW5 "u5" none none "channel" (.ok (some "p9"))).result =
        .error (.queueLimit
          (JobManager.admissionCeiling (Repository.get_or_create_user dbW5 "u5").1 none))) :=
  ⟨(claim_C5_amended dbC5 "u5" none none "channel" (.ok (some "p9"))).1,
   fun h => absurd
     (((claim_C5_amended dbW5 "u5" none none "channel" (.ok (some "p9"))).1).mp h)
     (by decide)⟩

/-! ## Claim C6 -/

/-- C6, counterexample: `cancel_job` awaits `interrupt()` with no exception
guard, so a raising interrupt call aborts the cancellation — nothing is ever
removed from the queue, the status stays Running, and no boolean is returned
(the exception propagates): interrupt's result DOES block cancellation. -/
theorem claim_C6_counterexample :
    jobC6.status = .running ∧
    (JobManager.cancel_job dbC6 1 true false 5).result = .error () ∧
    (JobManager.cancel_job dbC6 1 true false 5).db = dbC6 ∧
    (JobManager.cancel_job dbC6 1 true false 5).calls = [.interrupt] := by decide

/-- C6, amended: cancelling a terminal (or unknown) job returns `false`
untouched; cancelling a Pending job never calls `interrupt()`, always
attempts the queue removal (whose failure is swallowed: the `deleteRaises`
flag cannot change the outcome), sets status Cancelled with `completed_at` =
now and returns `true`; cancelling a Running job first awaits `interrupt()` —
when that call raises, the exception propagates and nothing is cancelled;
when it returns, cancellation proceeds exactly as in the Pending case with
`interrupt` heading the call trace. -/
theorem claim_C6_amended (db : DB) (jobId : Nat) (j : Job) (ir dr : Bool) (now : Nat)
    (hget : Repository.get_job_by_id db jobId = some j)
    (hU : (db.jobs.map Job.promptId).Nodup) :
    (j.status.isTerminal = true →
      JobManager.cancel_job db jobId ir dr now =
        { db := db, calls := [], result := .ok false }) ∧
    (j.status = .pending →
      (JobManager.cancel_job db jobId ir dr now).calls = [.deleteQueueItem j.promptId] ∧
      (JobManager.cancel_job db jobId ir dr now).result = .ok true ∧
      Repository.findJob (JobManager.cancel_job db jobId ir dr now).db j.promptId =
        some { j with status := .cancelled, completedAt := some now }) ∧
    (j.status = .running → ir = false →
      (JobManager.cancel_job db jobId ir dr now).calls =
        [.interrupt, .deleteQueueItem j.promptId] ∧
      (JobManager.cancel_job db jobId ir dr now).result = .ok true ∧
      Repository.findJob (JobManager.cancel_job db jobId ir dr now).db j.promptId =
        some { j with status := .cancelled, completedAt := some now }) ∧
    (j.status = .running → ir = true →
      (JobManager.cancel_job db jobId ir dr now).result = .error () ∧
      (JobManager.cancel_job db jobId ir dr now).db = db ∧
      (JobManager.cancel_job db jobId ir dr now).calls = [.interrupt]) ∧
    JobManager.cancel_job db jobId ir true now = JobManager.cancel_job db jobId ir false now
    := by
  have heq : ∀ dr2 : Bool, JobManager.cancel_job db jobId ir dr2 now =
      (if j.status.isTerminal = true then
        ({ db := db, calls := [], result := Except.ok false } : JobManager.CancelOutcome)
      else if j.status = JobStatus.running ∧ ir = true then
        { db := db,
          calls := (if j.status = JobStatus.running then [ExtCall.interrupt] else []),
          result := Except.error () }
      else
        { db := (Repository.update_job_status db j.promptId JobStatus.cancelled
            none none now).1,
          calls := (if j.status = JobStatus.running then [ExtCall.interrupt] else []) ++
            [ExtCall.deleteQueueItem j.promptId],
          result := Except.ok true }) := by
    intro dr2
    unfold JobManager.cancel_job
    rw [hget]
  have hmem : j ∈ db.jobs := List.mem_of_find?_eq_some hget
  have hfind : Repository.findJob db j.promptId = some j :=
    findJob_of_mem_nodup db.jobs j hmem hU
  have hcancelled : Repository.findJob
      (Repository.update_job_status db j.promptId .cancelled none none now).1 j.promptId =
      some { j with status := .cancelled, completedAt := some now } := by
    rw [findJob_after_update db j.promptId j .cancelled none none now hfind]
    rfl
  refine ⟨?_, ?_, ?_, ?_, (heq true).trans (heq false).symm⟩
  · intro hterm
    rw [heq dr, if_pos hterm]
  · intro hp
    rw [heq dr, if_neg (by rw [hp]; exact fun hc => nomatch hc),
      if_neg (by rw [hp]; exact fun hc => nomatch hc.1),
      if_neg (show ¬(j.status = JobStatus.running) from by rw [hp]; exact fun hc => nomatch hc)]
    exact ⟨rfl, rfl, hcancelled⟩
  · intro hr hirf
    rw [heq dr, if_neg (by rw [hr]; exact fun hc => nomatch hc),
      if_neg (by rw [hirf]; exact fun hc => nomatch hc.2),
      if_pos hr]
    exact ⟨rfl, rfl, hcancelled⟩
  · intro hr hirt
    rw [heq dr, if_neg (by rw [hr]; exact fun hc => nomatch hc),
      if_pos (⟨hr, hirt⟩ : j.status = JobStatus.running ∧ ir = true),
      if_pos hr]
    exact ⟨rfl, rfl, rfl⟩

/-- C6, witness: cancelling the Pending job skips `interrupt()`, attempts the
queue removal, marks the row Cancelled with the completion time, and returns
`true`; a failing queue removal changes nothing. -/
theorem claim_C6_witness :
    (Repository.get_job_by_id dbW6 2 = some jobW6 ∧
      (dbW6.jobs.map Job.promptId).Nodup ∧ jobW6.status = .pending) ∧
    ((JobManager.cancel_job dbW6 2 false true 8).calls = [.deleteQueueItem "p7"] ∧
     (JobManager.cancel_job dbW6 2 false true 8).result = .ok true ∧
     Repository.findJob (JobManager.cancel_job dbW6 2 false true 8).db "p7" =
       some { jobW6 with status := .cancelled, completedAt := some 8 }) :=
  ⟨⟨by decide, by decide, by decide⟩,
    (claim_C6_amended dbW6 2 jobW6 false true 8 (by decide) (by decide)).2.1 rfl⟩

/-! ## Claim C2 -/

/-- C2, evaluation of the code at the claim's failing input: because
`_reconnect_loop` increments `_reconnect_attempts` BEFORE calling
`_calculate_backoff`, the delay slept before reconnect attempt `n` is
`min(cap, base * multiplier^n) ± 10%`, not `min(cap, base * multiplier^(n-1))
± 10%`: for attempt 1 (counter freshly reset to 0) every jitter draw yields a
delay of at least 1.8s, strictly above the documented interval's upper end
`min(60, 1*2^0) * 1.1 = 1.1`; the counter does reset to 0 on success. -/
theorem claim_C2_code_eval (r : ℚ) (h0 : 0 ≤ r) (h1 : r < 1) :
    ComfyUIWebSocket.delayForAttempt 1 r =
      2 + 2 * ComfyUIWebSocket.JITTER_FACTOR * (2 * r - 1) ∧
    (9 / 5 : ℚ) ≤ ComfyUIWebSocket.delayForAttempt 1 r ∧
    min ComfyUIWebSocket.MAX_BACKOFF
        (ComfyUIWebSocket.INITIAL_BACKOFF * ComfyUIWebSocket.BACKOFF_MULTIPLIER ^ (1 - 1)) *
      (1 + ComfyUIWebSocket.JITTER_FACTOR) < ComfyUIWebSocket.delayForAttempt 1 r ∧
    (∀ n : ℕ, 1 ≤ n →
      (9 / 10 : ℚ) * min (ComfyUIWebSocket.INITIAL_BACKOFF *
          ComfyUIWebSocket.BACKOFF_MULTIPLIER ^ n) ComfyUIWebSocket.MAX_BACKOFF ≤
        ComfyUIWebSocket.delayForAttempt n r ∧
      ComfyUIWebSocket.delayForAttempt n r <
        (11 / 10 : ℚ) * min (ComfyUIWebSocket.INITIAL_BACKOFF *
          ComfyUIWebSocket.BACKOFF_MULTIPLIER ^ n) ComfyUIWebSocket.MAX_BACKOFF) ∧
    (∀ events, ComfyUIWebSocket.reconnectCounter
      (events ++ [ComfyUIWebSocket.ConnEvent.connectSuccess]) = 0) := by
  have hgen : ∀ n : ℕ, 1 ≤ n →
      (9 / 10 : ℚ) * min (ComfyUIWebSocket.INITIAL_BACKOFF *
          ComfyUIWebSocket.BACKOFF_MULTIPLIER ^ n) ComfyUIWebSocket.MAX_BACKOFF ≤
        ComfyUIWebSocket.delayForAttempt n r ∧
      ComfyUIWebSocket.delayForAttempt n r <
        (11 / 10 : ℚ) * min (ComfyUIWebSocket.INITIAL_BACKOFF *
          ComfyUIWebSocket.BACKOFF_MULTIPLIER ^ n) ComfyUIWebSocket.MAX_BACKOFF := by
    intro n _
    have hval : ComfyUIWebSocket.delayForAttempt n r =
        min ((2:ℚ) ^ n) 60 + min ((2:ℚ) ^ n) 60 * (1 / 10) * (2 * r - 1) := by
      unfold ComfyUIWebSocket.delayForAttempt ComfyUIWebSocket.calculate_backoff
      rw [Nat.zero_add]
      norm_num [ComfyUIWebSocket.INITIAL_BACKOFF, ComfyUIWebSocket.MAX_BACKOFF,
        ComfyUIWebSocket.BACKOFF_MULTIPLIER, ComfyUIWebSocket.JITTER_FACTOR]
    have hmin : min (ComfyUIWebSocket.INITIAL_BACKOFF *
        ComfyUIWebSocket.BACKOFF_MULTIPLIER ^ n) ComfyUIWebSocket.MAX_BACKOFF =
        min ((2:ℚ) ^ n) 60 := by
      norm_num [ComfyUIWebSocket.INITIAL_BACKOFF, ComfyUIWebSocket.MAX_BACKOFF,
        ComfyUIWebSocket.BACKOFF_MULTIPLIER]
    have hdpos : (0:ℚ) < min ((2:ℚ) ^ n) 60 :=
      lt_min (by positivity) (by norm_num)
    rw [hval, hmin]
    constructor
    · nlinarith [hdpos, h0]
    · nlinarith [hdpos, h1]
  have h1d : ComfyUIWebSocket.delayForAttempt 1 r =
      2 + 2 * ComfyUIWebSocket.JITTER_FACTOR * (2 * r - 1) := by
    unfold ComfyUIWebSocket.delayForAttempt ComfyUIWebSocket.calculate_backoff
    norm_num [ComfyUIWebSocket.INITIAL_BACKOFF, ComfyUIWebSocket.MAX_BACKOFF,
      ComfyUIWebSocket.BACKOFF_MULTIPLIER, ComfyUIWebSocket.JITTER_FACTOR, min_def]
  refine ⟨h1d, ?_, ?_, hgen, ?_⟩
  · rw [h1d]
    unfold ComfyUIWebSocket.JITTER_FACTOR
    nlinarith [h0]
  · rw [h1d]
    norm_num [ComfyUIWebSocket.INITIAL_BACKOFF, ComfyUIWebSocket.MAX_BACKOFF,
      ComfyUIWebSocket.BACKOFF_MULTIPLIER, ComfyUIWebSocket.JITTER_FACTOR, min_def]
    nlinarith [h0]
  · intro events
    unfold ComfyUIWebSocket.reconnectCounter
    rw [List.foldl_append]
    rfl

/-- C2, witness at the jitter draw 1/2 (zero jitter): the first reconnect
sleeps exactly 2 seconds. -/
theorem claim_C2_witness :
    ((0:ℚ) ≤ 1 / 2 ∧ (1/2 : ℚ) < 1) ∧
    (ComfyUIWebSocket.delayForAttempt 1 (1/2) =
      2 + 2 * ComfyUIWebSocket.JITTER_FACTOR * (2 * (1/2) - 1) ∧
    (9 / 5 : ℚ) ≤ ComfyUIWebSocket.delayForAttempt 1 (1/2) ∧
    min ComfyUIWebSocket.MAX_BACKOFF
        (ComfyUIWebSocket.INITIAL_BACKOFF * ComfyUIWebSocket.BACKOFF_MULTIPLIER ^ (1 - 1)) *
      (1 + ComfyUIWebSocket.JITTER_FACTOR) < ComfyUIWebSocket.delayForAttempt 1 (1/2) ∧
    (∀ n : ℕ, 1 ≤ n →
      (9 / 10 : ℚ) * min (ComfyUIWebSocket.INITIAL_BACKOFF *
          ComfyUIWebSocket.BACKOFF_MULTIPLIER ^ n) ComfyUIWebSocket.MAX_BACKOFF ≤
        ComfyUIWebSocket.delayForAttempt n (1/2) ∧
      ComfyUIWebSocket.delayForAttempt n (1/2) <
        (11 / 10 : ℚ) * min (ComfyUIWebSocket.INITIAL_BACKOFF *
          ComfyUIWebSocket.BACKOFF_MULTIPLIER ^ n) ComfyUIWebSocket.MAX_BACKOFF) ∧
    (∀ events, ComfyUIWebSocket.reconnectCounter
      (events ++ [ComfyUIWebSocket.ConnEvent.connectSuccess]) = 0)) :=
  ⟨⟨by norm_num, by norm_num⟩, claim_C2_code_eval (1/2) (by norm_num) (by norm_num)⟩

/-! ## Claim C7 -/

/-- The dispatch loop of `_listen` invokes every registered handler, in list
order, whatever each handler's outcome. -/
theorem dispatch_invokes_all (hs : List ComfyUIWebSocket.Handler) (raw : String) :
    (ComfyUIWebSocket.dispatch hs raw).map Prod.fst =
      hs.map ComfyUIWebSocket.Handler.hid := by
  induction hs with
  | nil => rfl
  | cons h t ih => simp [ComfyUIWebSocket.dispatch, ih]

/-- Searching past a prefix with no hit. -/
theorem find?_append_of_none {α : Type} (l1 l2 : List α) (p : α → Bool)
    (h : l1.find? p = none) : (l1 ++ l2).find? p = l2.find? p := by
  induction l1 with
  | nil => rfl
  | cons a t ih =>
    rw [List.find?_cons] at h
    cases hp : p a with
    | true => rw [hp] at h; exact nomatch h
    | false =>
      rw [hp] at h
      rw [List.cons_append, List.find?_cons_of_neg _ (by simp [hp])]
      exact ih h

/-- `add_listener` appends the handler to the event type's list: registration
order is list order. -/
theorem getHandlers_add_listener (cbs : ComfyUIWebSocket.Callbacks) (t : String)
    (h : ComfyUIWebSocket.Handler) :
    ComfyUIWebSocket.getHandlers (ComfyUIWebSocket.add_listener cbs t h) t =
      ComfyUIWebSocket.getHandlers cbs t ++ [h] := by
  unfold ComfyUIWebSocket.add_listener ComfyUIWebSocket.getHandlers
  cases hf : cbs.entries.find? (fun e => e.1 == t) with
  | none =>
    simp only
    rw [find?_append_of_none _ _ _ hf]
    rw [List.find?_cons_of_pos _ (by simp)]
    simp
  | some e0 =>
    simp only
    rw [find?_map_update (fun e => e.1 == t) (fun e => (e.1, e.2 ++ [h]))
      cbs.entries e0 hf (by simpa using List.find?_some hf)]
    simp

/-- C7, counterexample: one TEXT message CAN be fatal to the loop — a payload
that is valid JSON but not an object (e.g. `42`), or an object whose `type`
value is unhashable, raises past the inner `except json.JSONDecodeError` and
terminates the listener, registered handlers notwithstanding. -/
theorem claim_C7_counterexample :
    (ComfyUIWebSocket.processMessage cbsC7 (.text .nonObject)).2 = false ∧
    (ComfyUIWebSocket.processMessage cbsC7 (.text (.object .unhashable "42"))).2 = false ∧
    ComfyUIWebSocket.getHandlers cbsC7 "progress" = [handlerC7] :=
  ⟨rfl, rfl, rfl⟩

/-- C7, amended: only a `json.JSONDecodeError` is caught and skipped inside
the listener loop; a decoded non-object payload, or an unhashable `type`
value, raises uncaught and terminates the loop.  Every other TEXT message is
non-fatal: an object with an absent, string, or hashable non-string `type`
continues the loop, unknown and non-string types invoke no handlers, and a
recognized type invokes every registered handler in registration order even
when handlers raise (each is caught); registering a handler appends it to
its type's list. -/
theorem claim_C7_amended (cbs : ComfyUIWebSocket.Callbacks) (s raw : String) :
    ComfyUIWebSocket.processMessage cbs (.text .malformed) = ([], true) ∧
    ComfyUIWebSocket.processMessage cbs (.text .nonObject) = ([], false) ∧
    ComfyUIWebSocket.processMessage cbs (.text (.object .unhashable raw)) = ([], false) ∧
    ((ComfyUIWebSocket.processMessage cbs (.text (.object (.str s) raw))).2 = true ∧
      (ComfyUIWebSocket.processMessage cbs (.text (.object (.str s) raw))).1.map
          Prod.fst =
        (ComfyUIWebSocket.getHandlers cbs s).map ComfyUIWebSocket.Handler.hid) ∧
    ((ComfyUIWebSocket.processMessage cbs (.text (.object .absent raw))).2 = true ∧
      (ComfyUIWebSocket.processMessage cbs (.text (.object .absent raw))).1.map
          Prod.fst =
        (ComfyUIWebSocket.getHandlers cbs "unknown").map ComfyUIWebSocket.Handler.hid) ∧
    ComfyUIWebSocket.processMessage cbs (.text (.object .nonStr raw)) = ([], true) ∧
    (∀ t h, ComfyUIWebSocket.getHandlers (ComfyUIWebSocket.add_listener cbs t h) t =
      ComfyUIWebSocket.getHandlers cbs t ++ [h]) :=
  ⟨rfl, rfl, rfl, ⟨rfl, dispatch_invokes_all _ raw⟩, ⟨rfl, dispatch_invokes_all _ raw⟩,
    rfl, fun t h => getHandlers_add_listener cbs t h⟩

/-! ## Claim C9 -/

/-- The scenario's start state is reachable. -/
theorem wsReach_init : WSModel.init ∈ WSModel.reachSet := by decide

/-- `reachSet` is closed under `step`: it is the full reachable state space. -/
theorem wsReach_closed : ∀ s ∈ WSModel.reachSet, ∀ t ∈ WSModel.step s,
    t ∈ WSModel.reachSet := by decide

/-- Every reachable state with no successor is a fully terminated good state:
in particular the system never deadlocks. -/
theorem wsReach_stuck_good : ∀ s ∈ WSModel.reachSet,
    WSModel.step s = [] → WSModel.good s = true := by decide

/-- Every transition strictly increases the progress measure. -/
theorem wsReach_measure_lt : ∀ s ∈ WSModel.reachSet, ∀ t ∈ WSModel.step s,
    WSModel.measure s < WSModel.measure t := by decide

/-- The progress measure is bounded on the reachable states. -/
theorem wsReach_measure_le : ∀ s ∈ WSModel.reachSet, WSModel.measure s ≤ 12 := by
  decide

/-- C9: for every interleaving of `disconnect()` with a `connect()` suspended
at its underlying connection attempt (and with the listener task either one
may spawn), execution terminates — neither call deadlocks — in a state where
both calls have completed, the underlying connection and session are closed,
no listener task remains alive, and no reconnection is scheduled. A run is
any function following `step` while possible and constant once stuck. -/
theorem claim_C9 (run : ℕ → WSModel.St) (h0 : run 0 = WSModel.init)
    (hrun : ∀ i, (WSModel.step (run i) ≠ [] → run (i + 1) ∈ WSModel.step (run i)) ∧
      (WSModel.step (run i) = [] → run (i + 1) = run i)) :
    ∃ i, WSModel.step (run i) = [] ∧ WSModel.good (run i) = true := by
  have hmem : ∀ i, run i ∈ WSModel.reachSet := by
    intro i
    induction i with
    | zero => rw [h0]; exact wsReach_init
    | succ n ih =>
      by_cases h : WSModel.step (run n) = []
      · rw [(hrun n).2 h]; exact ih
      · exact wsReach_closed _ ih _ ((hrun n).1 h)
  have hex : ∃ i, WSModel.step (run i) = [] := by
    by_contra hno
    push_neg at hno
    have hgrow : ∀ i, i ≤ WSModel.measure (run i) := by
      intro i
      induction i with
      | zero => exact Nat.zero_le _
      | succ n ih =>
        have hlt := wsReach_measure_lt _ (hmem n) _ ((hrun n).1 (hno n))
        omega
    have h13 := hgrow 13
    have hbound := wsReach_measure_le _ (hmem 13)
    omega
  obtain ⟨i, hi⟩ := hex
  exact ⟨i, hi, wsReach_stuck_good _ (hmem i) hi⟩

/-- Any nonempty list's default-headed head is a member. -/
theorem headD_mem {α : Type} (l : List α) (d : α) (h : l ≠ []) : l.headD d ∈ l := by
  cases l with
  | nil => exact absurd rfl h
  | cons a t => exact List.mem_cons_self a t

/-- C9, witness: the deterministic first-enabled schedule from the scenario's
start state terminates in a good state. -/
theorem claim_C9_witness :
    ∃ i, WSModel.step (WSModel.schedFirst i) = [] ∧
      WSModel.good (WSModel.schedFirst i) = true :=
  claim_C9 WSModel.schedFirst rfl (fun i => by
    constructor
    · intro hne
      show (WSModel.step (WSModel.schedFirst i)).headD (WSModel.schedFirst i) ∈ _
      exact headD_mem _ _ hne
    · intro he
      show (WSModel.step (WSModel.schedFirst i)).headD (WSModel.schedFirst i) = _
      rw [he]
      rfl)

end DiscordSend
